import Mathlib

/-!
# Inter-window data exchange core — verification

Shallow embedding of the two non-trivial functions of the frame-analysis
tool's window-communication module (`openSteelSelector` and
`sendDataToParent`), translated from the JavaScript source.  Browser
collaborators (the window URL's query, `sessionStorage`, `localStorage`,
the opener window and `window.open`) are modelled as explicit environment
records; JavaScript values are modelled by `JSValue`, with numbers kept as
exact rationals plus the non-finite markers `NaN` and `±Infinity`.

The only place where IEEE-double rounding matters to any statement below
is the *finiteness* of a `parseInt` result: `parseInt` computes an exact
mathematical integer and converts it to a double, and that conversion
yields `±Infinity` exactly when the magnitude is at least
2^1024 − 2^970 (the midpoint above the largest finite double, which
round-to-nearest-even sends to infinity).  That threshold is modelled
exactly by `jsOverflowBound`; within the finite range the value is kept
exact (mantissa rounding of huge finite integers is irrelevant to every
statement below, which only ever inspect small exact values or
finiteness).
-/

set_option maxRecDepth 8000

/-- A JavaScript number: a finite value (kept as an exact rational) or one
of the non-finite markers. -/
inductive JSNum where
  | finite (q : Rat)
  | nan
  | posInf
  | negInf
deriving DecidableEq

/-- A JavaScript value, as far as the two modelled functions can observe
one: `undefined`, `null`, numbers, strings, booleans, and plain objects
(own enumerable string-keyed fields, in insertion order).  Prototype-chain
lookups play no role for the keys these functions read. -/
inductive JSValue where
  | undef
  | null
  | num (x : JSNum)
  | str (s : String)
  | boolean (b : Bool)
  | obj (fields : List (String × JSValue))

/-- `Number.isFinite`. -/
def JSNum.isFinite : JSNum → Bool
  | .finite _ => true
  | _ => false

/-- `Math.trunc` on a finite value: truncation toward zero. -/
def ratTrunc (q : Rat) : Int :=
  if 0 ≤ q.num then ((q.num.natAbs / q.den : Nat) : Int)
  else -((q.num.natAbs / q.den : Nat) : Int)

/-- The least magnitude at which conversion of an exact real to an IEEE
double rounds to `±Infinity` (the midpoint between the largest finite
double `2^1024 − 2^971` and `2^1024`; ties go to the even `2^1024`). -/
def jsOverflowBound : Nat := 2 ^ 1024 - 2 ^ 970

/-- Conversion of the exact integer computed by `parseInt` to a JavaScript
number: magnitudes at or above `jsOverflowBound` overflow to `±Infinity`,
smaller ones stay finite (kept exact here; see the header comment). -/
def jsIntToNumber (n : Int) : JSNum :=
  if n.natAbs < jsOverflowBound then .finite (n : Rat)
  else if n < 0 then .negInf
  else .posInf

/-- The character set removed by `String.prototype.trim` (ECMAScript
WhiteSpace and LineTerminator code points). -/
def isJsWhitespaceChar (c : Char) : Bool :=
  c == ' ' || c == '\t' || c == '\n' || c == '\r' ||
  c == Char.ofNat 0x0B || c == Char.ofNat 0x0C || c == Char.ofNat 0xA0 ||
  c == Char.ofNat 0x1680 || (0x2000 ≤ c.toNat && c.toNat ≤ 0x200A) ||
  c == Char.ofNat 0x2028 || c == Char.ofNat 0x2029 || c == Char.ofNat 0x202F ||
  c == Char.ofNat 0x205F || c == Char.ofNat 0x3000 || c == Char.ofNat 0xFEFF

/-- `value.trim()`. -/
def jsTrim (s : String) : String :=
  String.mk (((s.toList.dropWhile isJsWhitespaceChar).reverse.dropWhile
    isJsWhitespaceChar).reverse)

/-- ASCII case folding, as used by `toLowerCase()` on the characters that
can make the trimmed value compare equal to the all-ASCII token `"bulk"`. -/
def asciiLowerChar (c : Char) : Char :=
  if 'A' ≤ c && c ≤ 'Z' then Char.ofNat (c.toNat + 32) else c

/-- `value.toLowerCase()` (ASCII range; sufficient for the `"bulk"`
comparison in the resolver). -/
def asciiLower (s : String) : String :=
  String.mk (s.toList.map asciiLowerChar)

/-- Value of an ASCII decimal digit. -/
def digitVal (c : Char) : Nat := c.toNat - 48

/-- The digit-reading loop of `parseInt(·, 10)`: the longest leading run of
ASCII digits, `none` when there is no leading digit. -/
def parseIntDigits (l : List Char) : Option Nat :=
  let ds := l.takeWhile Char.isDigit
  if ds.isEmpty then none
  else some (ds.foldl (fun acc c => acc * 10 + digitVal c) 0)

/-- `parseInt(s, 10)` on an already-trimmed string: optional sign, then the
longest leading digit run; `none` models the `NaN` result.  The value is
the exact mathematical integer (its conversion to a double is
`jsIntToNumber`). -/
def parseInt10 (s : String) : Option Int :=
  match s.toList with
  | '+' :: rest => (parseIntDigits rest).map (fun n => (n : Int))
  | '-' :: rest => (parseIntDigits rest).map (fun n => -(n : Int))
  | l => (parseIntDigits l).map (fun n => (n : Int))

/-- `resolveTargetMemberIndex` (src/unnamed/part_000, lines 94–107): maps a
candidate value to `null` (absent, modelled `none`), a number, or the
string `'bulk'`.

```js
if (value === undefined || value === null) return null;
if (typeof value === 'number')
    return Number.isFinite(value) ? Math.trunc(value) : null;
if (typeof value === 'string') {
    const trimmed = value.trim();
    if (!trimmed) return null;
    if (trimmed.toLowerCase() === 'bulk') return 'bulk';
    const numeric = parseInt(trimmed, 10);
    return Number.isNaN(numeric) ? null : numeric;
}
return null;
```
Note `parseInt` never returns `NaN` on a digit run, but can return
`±Infinity` on overflow — that value passes the `isNaN` gate. -/
def resolveTargetMemberIndex : JSValue → Option JSValue
  | .undef => none
  | .null => none
  | .num x =>
    match x with
    | .finite q => some (.num (.finite ((ratTrunc q : Int) : Rat)))
    | _ => none
  | .str s =>
    let trimmed := jsTrim s
    if trimmed = "" then none
    else if asciiLower trimmed = "bulk" then some (.str "bulk")
    else
      match parseInt10 trimmed with
      | none => none
      | some n => some (.num (jsIntToNumber n))
  | .boolean _ => none
  | .obj _ => none

/-- The record `sendDataToParent` builds and persists (`dataToSend` in the
source): resolved index, sanitized properties, timestamp and the fixed
schema version tag. -/
structure PropertyRecord where
  targetMemberIndex : JSValue
  properties : List (String × JSValue)
  timestamp : Nat
  version : String

/-- A `localStorage` slot: either an arbitrary pre-existing string or a
JSON-encoded `PropertyRecord`.  The JSON encoding is modelled as the
identity embedding `StoredValue.record`: `JSON.parse (JSON.stringify r)`
recovers `r` for the records written here (whose property values are
JSON-representable data). -/
inductive StoredValue where
  | raw (s : String)
  | record (r : PropertyRecord)

/-- Replace-or-append write of one key of a string-keyed store, leaving
every other key in place (`Storage.setItem`). -/
def setKey (l : List (String × α)) (k : String) (v : α) : List (String × α) :=
  match l with
  | [] => [(k, v)]
  | (k', v') :: rest => if k' == k then (k, v) :: rest else (k', v') :: setKey rest k v

/-- The browser state `sendDataToParent` reads and writes, as explicit
data: the window URL's `targetMember` query parameter, the session store
and whether reading it throws, the opener window's `selectedMemberIndex`
field (`.undef` when there is no opener) and whether reading it throws, the
shared `localStorage`, the clock, and whether `localStorage.setItem`
throws (e.g. quota). -/
structure PublishEnv where
  urlTargetMember : Option String
  sessionStore : List (String × String)
  sessionReadFails : Bool
  openerValue : JSValue
  openerReadFails : Bool
  localStore : List (String × StoredValue)
  now : Nat
  localSetFails : Bool

/-- The failure taxonomy of `sendDataToParent`, one constructor per
`throw` site (each is caught at the function boundary, logged, alerted and
converted to a `false` return).  `storageWriteFailed` is the catch of a
throwing `localStorage.setItem`. -/
inductive PublishError where
  | invalidPayload
  | missingRequiredFields (missing : List String)
  | unresolvedTarget
  | invalidTargetType
  | storageWriteFailed

/-- Outcome of one publish attempt: the persisted record, or the error the
boundary catch handled. -/
inductive PublishOutcome where
  | ok (r : PropertyRecord)
  | error (e : PublishError)

/-- The boolean the JavaScript function actually returns. -/
def publishSucceeded : PublishOutcome → Bool
  | .ok _ => true
  | .error _ => false

/-- The session-scoped fallback key (`sessionStorage`). -/
def sessionFallbackKey : String := "steelSelectorTargetMemberIndex"

/-- The fixed shared-storage key the result is written to
(`localStorage`). -/
def frameStorageKey : String := "steelSelectionForFrameAnalyzer"

/-- The required property keys (`requiredProps` in the source). -/
def requiredProps : List String := ["I", "A"]

/-- The fixed schema version tag. -/
def schemaVersion : String := "1.0"

/-- JavaScript property read `o[k]`: `undefined` when the key is absent. -/
def getProp (fields : List (String × JSValue)) (k : String) : JSValue :=
  (fields.lookup k).getD (JSValue.undef)

/-- The per-key test of the required-property filter:
`properties[prop] === undefined || properties[prop] === null ||
properties[prop] === ''`. -/
def jsMissingProp : JSValue → Bool
  | .undef => true
  | .null => true
  | .str "" => true
  | _ => false

/-- `missingProps` in the source: the required keys whose value is absent,
`null` or the empty string. -/
def missingRequired (fields : List (String × JSValue)) : List String :=
  requiredProps.filter (fun p => jsMissingProp (getProp fields p))

/-- The rest-destructuring `{ targetMemberIndex: _, ...sanitizedProps }`:
every field except the override key, in order. -/
def sanitizeFields (fields : List (String × JSValue)) : List (String × JSValue) :=
  fields.filter (fun kv => !(kv.1 == "targetMemberIndex"))

/-- `urlParams.get(...)` / `sessionStorage.getItem(...)` results as the
values the resolver receives: `null` for a missing entry, the string
otherwise. -/
def optStrToJS : Option String → JSValue
  | none => .null
  | some s => .str s

/-- The ordered fallback chain of `sendDataToParent` (lines 109–130):
payload override, then URL parameter, then session-scoped fallback (a
throwing read is caught and contributes nothing), then the opener
window's field (likewise). -/
def resolveChain (overrideTargetIndex : JSValue) (env : PublishEnv) : Option JSValue :=
  match resolveTargetMemberIndex overrideTargetIndex with
  | some t => some t
  | none =>
    match resolveTargetMemberIndex (optStrToJS env.urlTargetMember) with
    | some t => some t
    | none =>
      match (if env.sessionReadFails then none
             else resolveTargetMemberIndex
               (optStrToJS (env.sessionStore.lookup sessionFallbackKey))) with
      | some t => some t
      | none =>
        if env.openerReadFails then none
        else resolveTargetMemberIndex env.openerValue

/-- The defensive re-check on `dataToSend.targetMemberIndex`
(lines 146–151): a number must be finite, and a non-number must be the
string `'bulk'`; anything else throws. -/
def targetTypeInvalid : JSValue → Bool
  | .num x => !x.isFinite
  | .str "bulk" => false
  | _ => true

/-- `sendDataToParent` (lines 74–176), with the boundary `try/catch`
reified as the `PublishOutcome`: payload-shape check (`!properties ||
typeof properties !== 'object'` rejects exactly the non-objects), required
properties, override destructuring, the resolution chain, the defensive
type re-check, and the single `localStorage` write.  Every error path
leaves the environment untouched; the success path also closes the window
(no observable storage effect) and returns `true`. -/
def sendDataToParent (properties : JSValue) (env : PublishEnv) :
    PublishOutcome × PublishEnv :=
  match properties with
  | .obj fields =>
    let missing := missingRequired fields
    if missing.isEmpty then
      let overrideTargetIndex := getProp fields "targetMemberIndex"
      let sanitizedProps := sanitizeFields fields
      match resolveChain overrideTargetIndex env with
      | none => (.error .unresolvedTarget, env)
      | some t =>
        let dataToSend : PropertyRecord :=
          { targetMemberIndex := t, properties := sanitizedProps,
            timestamp := env.now, version := schemaVersion }
        if targetTypeInvalid t then (.error .invalidTargetType, env)
        else if env.localSetFails then (.error .storageWriteFailed, env)
        else
          (.ok dataToSend,
           { env with
             localStore := setKey env.localStore frameStorageKey (.record dataToSend) })
    else (.error (.missingRequiredFields missing), env)
  | _ => (.error .invalidPayload, env)

/-- The boolean result of a publish attempt, as the caller sees it. -/
def sendDataToParentReturn (properties : JSValue) (env : PublishEnv) : Bool :=
  publishSucceeded (sendDataToParent properties env).1

/-- The resolved index a successful publish persisted, if any. -/
def publishedIndex : PublishOutcome → Option JSValue
  | .ok r => some r.targetMemberIndex
  | .error _ => none

/-- JavaScript truthiness, as used by `currentProps.material || 'steel'`
and friends. -/
def jsTruthy : JSValue → Bool
  | .undef => false
  | .null => false
  | .boolean b => b
  | .num (.finite q) => !(q == 0)
  | .num .nan => false
  | .num .posInf => true
  | .num .negInf => true
  | .str s => !(s == "")
  | .obj _ => true

/-- `a || b`: the left operand when truthy, otherwise the right one. -/
def jsOr (v dflt : JSValue) : JSValue := if jsTruthy v then v else dflt

/-- `typeof v === 'number'`. -/
def jsIsNumberType : JSValue → Bool
  | .num _ => true
  | _ => false

/-- `memberIndex < 0` for the values that reach it (numbers; the guard
short-circuits on non-numbers).  `NaN < 0` is false. -/
def jsLtZero : JSValue → Bool
  | .num (.finite q) => decide (q < 0)
  | .num .negInf => true
  | _ => false

/-- Decimal digits of a natural number (auxiliary, fuel = the number
itself, which bounds the digit count). -/
def natDecimalAux : Nat → Nat → List Char
  | 0, _ => []
  | fuel + 1, n =>
    if n < 10 then [Char.ofNat (48 + n)]
    else natDecimalAux fuel (n / 10) ++ [Char.ofNat (48 + n % 10)]

/-- Decimal notation of a natural number. -/
def natDecimal (n : Nat) : String := String.mk (natDecimalAux (n + 1) n)

/-- Significant digits with trailing zeros removed (for the exponential
display form). -/
def stripTrailingZeros (l : List Char) : List Char :=
  (l.reverse.dropWhile (fun c => c == '0')).reverse

/-- JavaScript `Number#toString` on an integral magnitude: plain decimal
below 10^21, exponential notation (`d.dddde+k`) from 10^21 on. -/
def jsNatDisplay (n : Nat) : String :=
  if n < 10 ^ 21 then natDecimal n
  else
    let ds := natDecimal n
    let sig := stripTrailingZeros ds.toList
    match sig with
    | [] => "0"
    | [c] => String.mk [c] ++ "e+" ++ natDecimal (ds.length - 1)
    | c :: rest =>
      String.mk [c] ++ "." ++ String.mk rest ++ "e+" ++ natDecimal (ds.length - 1)

/-- Fractional decimal digits of `r / d` (long division; fuel bounds the
digit count — any value denoting an IEEE double is a dyadic rational,
whose expansion terminates within 1100 digits). -/
def fracDigitsAux : Nat → Nat → Nat → List Char
  | 0, _, _ => []
  | _ + 1, 0, _ => []
  | fuel + 1, r, d =>
    let r10 := r * 10
    Char.ofNat (48 + r10 / d) :: fracDigitsAux fuel (r10 % d) d

/-- JavaScript `Number#toString` (ToString of a number), for the value
ranges the modelled calls produce: `NaN`/`±Infinity` markers, integral
values in plain decimal (exponential from 10^21 on), and non-integral
values in plain positional decimal.  JavaScript's switch to exponential
notation below 10^-7 and shortest-round-trip digit selection concern value
ranges no statement below evaluates. -/
def jsNumToString : JSNum → String
  | .nan => "NaN"
  | .posInf => "Infinity"
  | .negInf => "-Infinity"
  | .finite q =>
    let sign := if q.num < 0 then "-" else ""
    let a := q.num.natAbs
    let ip := a / q.den
    let fr := a % q.den
    if fr == 0 then sign ++ jsNatDisplay ip
    else sign ++ natDecimal ip ++ "." ++ String.mk (fracDigitsAux 1100 fr q.den)

/-- ToString coercion applied by `URLSearchParams` to a record value. -/
def jsParamString : JSValue → String
  | .str s => s
  | .num x => jsNumToString x
  | .boolean b => if b then "true" else "false"
  | .null => "null"
  | .undef => "undefined"
  | .obj _ => "[object Object]"

/-- The window geometry object built by `openSteelSelector`
(`windowFeatures` in the source; serialized to the comma-joined feature
string of `window.open`, kept structured here). -/
structure WindowFeatures where
  width : Nat
  height : Nat
  left : Rat
  top : Rat
  scrollbars : String
  resizable : String

/-- The secondary-window URL, kept as page plus structured query (the
`URLSearchParams` serialization is percent-encoding of exactly these
pairs). -/
structure SelectorUrl where
  page : String
  query : List (String × String)

/-- One `window.open` request: URL, window name, features. -/
structure OpenCall where
  url : SelectorUrl
  windowName : String
  features : WindowFeatures

/-- The browser state `openSteelSelector` touches: the screen size (for
centering) and the result `window.open` would give (`none` models a popup
blocker refusing the window). -/
structure OpenEnv where
  screenWidth : Rat
  screenHeight : Rat
  openResult : Option Nat

/-- The fixed geometry: 1200×800, centered via
`Math.max(0, screen/2 − offset)`, scrollbars and resizing enabled. -/
def selectorFeatures (env : OpenEnv) : WindowFeatures :=
  { width := 1200, height := 800,
    left := max 0 (env.screenWidth / 2 - 600),
    top := max 0 (env.screenHeight / 2 - 400),
    scrollbars := "yes", resizable := "yes" }

/-- The query pairs of the selector URL (the `URLSearchParams` literal in
the source, in insertion order, values ToString-coerced). -/
def selectorQuery (memberIndex : JSValue) (currentProps : List (String × JSValue)) :
    List (String × String) :=
  [("targetMember", jsParamString memberIndex),
   ("material", jsParamString (jsOr (getProp currentProps "material") (.str "steel"))),
   ("eValue", jsParamString (jsOr (getProp currentProps "E") (.str "205000"))),
   ("strengthValue", jsParamString (jsOr (getProp currentProps "strengthValue") (.str "235")))]

/-- `openSteelSelector` (src/unnamed/part_000, lines 12–66): validates the
member index (`typeof memberIndex !== 'number' || memberIndex < 0`
throws), builds the URL and features, requests the window, and converts a
blocked popup (falsy `window.open` result) into a caught error and a
`null` return.  The second component records the `window.open` requests
made (empty on the validation failure path, where no window creation is
attempted).  The deferred one-second liveness check only logs and is not
modelled. -/
def openSteelSelector (memberIndex : JSValue) (currentProps : List (String × JSValue))
    (env : OpenEnv) : Option Nat × List OpenCall :=
  if !(jsIsNumberType memberIndex) || jsLtZero memberIndex then
    (none, [])
  else
    let call : OpenCall :=
      { url := { page := "steel_selector.html",
                 query := selectorQuery memberIndex currentProps },
        windowName := "SteelSelector",
        features := selectorFeatures env }
    match env.openResult with
    | none => (none, [call])
    | some h => (some h, [call])

/-! ## Concrete scenarios used by the statements below -/

/-- A minimal valid payload: both required fields present, no override. -/
def plainFields : List (String × JSValue) :=
  [("I", .num (.finite 1)), ("A", .num (.finite 1))]

/-- The same payload with the override field set to the number `3`. -/
def overrideFields : List (String × JSValue) :=
  [("I", .num (.finite 1)), ("A", .num (.finite 1)),
   ("targetMemberIndex", .num (.finite 3))]

/-- Priority scenario: URL `targetMember=5`, session fallback `7`, no
opener value. -/
def envPriority : PublishEnv :=
  { urlTargetMember := some "5",
    sessionStore := [(sessionFallbackKey, "7")],
    sessionReadFails := false,
    openerValue := .undef,
    openerReadFails := false,
    localStore := [],
    now := 0,
    localSetFails := false }

/-- The priority scenario without the URL parameter. -/
def envPriorityNoUrl : PublishEnv :=
  { envPriority with urlTargetMember := none }

/-- An environment in which no source yields a target index. -/
def envAllAbsent : PublishEnv :=
  { envPriority with urlTargetMember := none, sessionStore := [] }

/-- Round-trip scenario: URL `targetMember=2`, empty stores. -/
def envRoundTrip : PublishEnv :=
  { urlTargetMember := some "2",
    sessionStore := [],
    sessionReadFails := false,
    openerValue := .undef,
    openerReadFails := false,
    localStore := [],
    now := 777,
    localSetFails := false }

/-- The round-trip payload `{I: 1e-4, A: 5e-3}`. -/
def roundTripFields : List (String × JSValue) :=
  [("I", .num (.finite ((1 : Rat) / 10000))), ("A", .num (.finite ((1 : Rat) / 200)))]

/-- The record the round-trip publish must persist. -/
def roundTripRecord : PropertyRecord :=
  { targetMemberIndex := .num (.finite 2),
    properties := roundTripFields,
    timestamp := 777,
    version := "1.0" }

/-- A 310-digit numeral (`1` followed by 309 zeros): its mathematical
value, 10^309, exceeds the double overflow threshold, so `parseInt`
returns `Infinity` on it. -/
def hugeDigits : String := String.mk ('1' :: List.replicate 309 '0')

/-- A valid payload whose override is the 310-digit numeral. -/
def hugeOverrideFields : List (String × JSValue) :=
  [("I", .num (.finite 1)), ("A", .num (.finite 1)),
   ("targetMemberIndex", .str hugeDigits)]

/-- A launcher environment in which `window.open` succeeds with handle 1. -/
def envOpenOk : OpenEnv :=
  { screenWidth := 1920, screenHeight := 1080, openResult := some 1 }


/-- The four candidate sources of the target index, in the priority order
the specification states (payload override, URL parameter, session-scoped
fallback, opener field), each already passed through the resolver; a
throwing session or opener read contributes nothing.  This is the
spec-side view of the chain; `resolveChain` is the code's nested
conditionals. -/
def publishSources (overrideTargetIndex : JSValue) (env : PublishEnv) :
    List (Option JSValue) :=
  [resolveTargetMemberIndex overrideTargetIndex,
   resolveTargetMemberIndex (optStrToJS env.urlTargetMember),
   if env.sessionReadFails then none
   else resolveTargetMemberIndex (optStrToJS (env.sessionStore.lookup sessionFallbackKey)),
   if env.openerReadFails then none else resolveTargetMemberIndex env.openerValue]

/-- The magnitude precondition under which a value's string parse stays in
the finite double range (vacuous for non-strings). -/
def withinParseRange (v : JSValue) : Prop :=
  ∀ s : String, v = .str s →
    ∀ n : Int, parseInt10 (jsTrim s) = some n → n.natAbs < jsOverflowBound

/-! ## Helper lemmas -/

/-- `setItem` on one key leaves every other key's value unchanged. -/
theorem lookup_setKey_ne (l : List (String × α)) (k key : String) (v : α)
    (h : k ≠ key) : (setKey l key v).lookup k = l.lookup k := by
  have hbeq : (k == key) = false := beq_eq_false_iff_ne.mpr h
  induction l with
  | nil => simp [setKey, List.lookup, hbeq]
  | cons hd tl ih =>
    obtain ⟨k', v'⟩ := hd
    by_cases hk : k' = key
    · subst hk
      simp [setKey, List.lookup, hbeq]
    · have hk2 : (k' == key) = false := beq_eq_false_iff_ne.mpr hk
      cases hkk : k == k' <;> simp [setKey, List.lookup, hk2, hkk, ih]

/-- The nested conditionals of the source's resolution sequence compute
the first usable value of the ordered source list. -/
theorem resolveChain_eq_findSome (o : JSValue) (env : PublishEnv) :
    resolveChain o env = (publishSources o env).findSome? id := by
  unfold resolveChain publishSources
  cases h1 : resolveTargetMemberIndex o <;>
    cases h2 : resolveTargetMemberIndex (optStrToJS env.urlTargetMember) <;>
      cases hs : env.sessionReadFails <;>
        cases h3 : resolveTargetMemberIndex
            (optStrToJS (env.sessionStore.lookup sessionFallbackKey)) <;>
          cases ho : env.openerReadFails <;>
            cases h4 : resolveTargetMemberIndex env.openerValue <;>
              simp [List.findSome?, h1, h2, h3, h4, hs, ho]

/-- Every publish attempt either fails, leaving the environment untouched,
or succeeds, writing exactly the built record to the fixed shared key. -/
theorem publish_cases (p : JSValue) (env : PublishEnv) :
    (∃ e, sendDataToParent p env = (.error e, env)) ∨
    (∃ r, sendDataToParent p env =
      (.ok r, { env with localStore := setKey env.localStore frameStorageKey (.record r) })) := by
  cases p with
  | obj fields =>
    unfold sendDataToParent
    by_cases hm : (missingRequired fields).isEmpty
    · simp only [hm, if_true]
      cases hc : resolveChain (getProp fields "targetMemberIndex") env with
      | none => exact Or.inl ⟨.unresolvedTarget, rfl⟩
      | some t =>
        by_cases ht : targetTypeInvalid t
        · simp only [ht, if_true]
          exact Or.inl ⟨.invalidTargetType, rfl⟩
        · by_cases hl : env.localSetFails
          · simp only [ht, hl, if_false, if_true, Bool.false_eq_true]
            exact Or.inl ⟨.storageWriteFailed, rfl⟩
          · simp only [ht, hl, if_false, Bool.false_eq_true]
            exact Or.inr ⟨_, rfl⟩
    · simp only [hm, if_false, Bool.false_eq_true]
      exact Or.inl ⟨.missingRequiredFields (missingRequired fields), rfl⟩
  | undef => exact Or.inl ⟨.invalidPayload, rfl⟩
  | null => exact Or.inl ⟨.invalidPayload, rfl⟩
  | num x => exact Or.inl ⟨.invalidPayload, rfl⟩
  | str s => exact Or.inl ⟨.invalidPayload, rfl⟩
  | boolean b => exact Or.inl ⟨.invalidPayload, rfl⟩

/-! ## Claims -/

/-- C5: Round-trip of a successful publish: calling publish with payload
`{I: 1e-4, A: 5e-3}` while the window URL carries `targetMember=2` writes
to the fixed shared-storage key a record whose `targetMemberIndex` equals
`2`, whose properties map contains `I == 1e-4` and `A == 5e-3` with the
`targetMemberIndex` override field stripped out, and whose version tag
equals the fixed schema version `'1.0'`; a subsequent read of that key
yields exactly this record. -/
theorem c5_publish_round_trip :
    sendDataToParent (.obj roundTripFields) envRoundTrip =
      (.ok roundTripRecord,
       { envRoundTrip with localStore := [(frameStorageKey, .record roundTripRecord)] }) ∧
    roundTripRecord.targetMemberIndex = .num (.finite 2) ∧
    roundTripRecord.properties.lookup "I" = some (.num (.finite ((1 : Rat) / 10000))) ∧
    roundTripRecord.properties.lookup "A" = some (.num (.finite ((1 : Rat) / 200))) ∧
    roundTripRecord.properties.lookup "targetMemberIndex" = none ∧
    roundTripRecord.version = schemaVersion ∧
    ({ envRoundTrip with
       localStore := [(frameStorageKey, .record roundTripRecord)] } :
        PublishEnv).localStore.lookup frameStorageKey = some (.record roundTripRecord) ∧
    sendDataToParentReturn (.obj roundTripFields) envRoundTrip = true :=
  ⟨rfl, rfl, rfl, rfl, rfl, rfl, rfl, rfl⟩

/-- C6: publish never lets an exception escape: on every input and
environment the operation terminates in exactly one of two ways — a
successful write returning `true`, or an error caught at the boundary,
leaving the environment unchanged and returning `false`. -/
theorem c6_publish_never_throws (p : JSValue) (env : PublishEnv) :
    (∃ r env2, sendDataToParent p env = (.ok r, env2) ∧
      sendDataToParentReturn p env = true) ∨
    (∃ e, sendDataToParent p env = (.error e, env) ∧
      sendDataToParentReturn p env = false) := by
  rcases publish_cases p env with ⟨e, h⟩ | ⟨r, h⟩
  · exact Or.inr ⟨e, h, by simp [sendDataToParentReturn, h, publishSucceeded]⟩
  · exact Or.inl ⟨r, _, h, by simp [sendDataToParentReturn, h, publishSucceeded]⟩

/-- C7: failure of publish is idempotent and atomic with respect to shared
storage: `publish(null)` yields the same `InvalidPayload` failure (and a
`false` return) on both of two consecutive calls, with no storage effect,
and every failing publish leaves the environment unchanged. -/
theorem c7_failure_idempotent :
    (∀ env : PublishEnv,
      sendDataToParent .null env = (.error .invalidPayload, env) ∧
      sendDataToParent .null (sendDataToParent .null env).2 =
        (.error .invalidPayload, env) ∧
      sendDataToParentReturn .null env = false) ∧
    (∀ (p : JSValue) (env : PublishEnv) (e : PublishError),
      (sendDataToParent p env).1 = .error e → (sendDataToParent p env).2 = env) := by
  constructor
  · intro env
    exact ⟨rfl, rfl, rfl⟩
  · intro p env e h
    rcases publish_cases p env with ⟨e', h2⟩ | ⟨r, h2⟩
    · rw [h2]
    · simp [h2] at h

/-- Witness for C7 at a concrete environment. -/
theorem c7_failure_idempotent_witness :
    sendDataToParent .null envRoundTrip = (.error .invalidPayload, envRoundTrip) ∧
    (sendDataToParent .null envRoundTrip).2 = envRoundTrip := by
  refine ⟨(c7_failure_idempotent.1 envRoundTrip).1, ?_⟩
  exact c7_failure_idempotent.2 .null envRoundTrip .invalidPayload rfl

/-- C9: publish writes only the single fixed shared-storage key: the
session-scoped fallback slot is read-only to it, and every storage key
other than the fixed one is unchanged whether the call succeeds or
fails. -/
theorem c9_publish_frame_effect (p : JSValue) (env : PublishEnv) :
    (sendDataToParent p env).2.sessionStore = env.sessionStore ∧
    ∀ k, k ≠ frameStorageKey →
      (sendDataToParent p env).2.localStore.lookup k = env.localStore.lookup k := by
  rcases publish_cases p env with ⟨e, h⟩ | ⟨r, h⟩
  · rw [h]; exact ⟨rfl, fun k _ => rfl⟩
  · rw [h]
    exact ⟨rfl, fun k hk => lookup_setKey_ne _ k frameStorageKey _ hk⟩

/-- Witness for C9 at a concrete successful publish and the session key. -/
theorem c9_publish_frame_effect_witness :
    (sendDataToParent (.obj roundTripFields) envRoundTrip).2.sessionStore =
      envRoundTrip.sessionStore ∧
    (sendDataToParent (.obj roundTripFields) envRoundTrip).2.localStore.lookup
      sessionFallbackKey = envRoundTrip.localStore.lookup sessionFallbackKey := by
  refine ⟨(c9_publish_frame_effect (.obj roundTripFields) envRoundTrip).1, ?_⟩
  exact (c9_publish_frame_effect (.obj roundTripFields) envRoundTrip).2
    sessionFallbackKey (by decide)

/-- C1: publish resolves the target member index by trying, in order, the
payload's own override field, the URL's `targetMember` parameter, the
session-scoped fallback and the opener window's field, the first usable
value winning (the persisted index is exactly the first non-absent source
of the ordered list); with override `3`, URL `5` and session `7` the
resolved index is `3`, without the override `5`, and without the URL
parameter `7`; when no source yields a value the call fails with the
unresolved-target error. -/
theorem c1_target_resolution_priority :
    (∀ (fields : List (String × JSValue)) (env : PublishEnv),
      missingRequired fields = [] →
      ((publishSources (getProp fields "targetMemberIndex") env).findSome? id = none →
        sendDataToParent (.obj fields) env = (.error .unresolvedTarget, env)) ∧
      (∀ t, (publishSources (getProp fields "targetMemberIndex") env).findSome? id = some t →
        targetTypeInvalid t = false → env.localSetFails = false →
        publishedIndex (sendDataToParent (.obj fields) env).1 = some t)) ∧
    publishedIndex (sendDataToParent (.obj overrideFields) envPriority).1 =
      some (.num (.finite 3)) ∧
    publishedIndex (sendDataToParent (.obj plainFields) envPriority).1 =
      some (.num (.finite 5)) ∧
    publishedIndex (sendDataToParent (.obj plainFields) envPriorityNoUrl).1 =
      some (.num (.finite 7)) := by
  refine ⟨?_, rfl, rfl, rfl⟩
  intro fields env hmiss
  have hempty : (missingRequired fields).isEmpty = true := by simp [hmiss]
  constructor
  · intro hnone
    have hchain : resolveChain (getProp fields "targetMemberIndex") env = none := by
      rw [resolveChain_eq_findSome]; exact hnone
    simp [sendDataToParent, hempty, hchain]
  · intro t hsome hval hset
    have hchain : resolveChain (getProp fields "targetMemberIndex") env = some t := by
      rw [resolveChain_eq_findSome]; exact hsome
    simp [sendDataToParent, hempty, hchain, hval, hset, publishedIndex]

/-- Witness for C1's general part: with every source absent, publish fails
with the unresolved-target error. -/
theorem c1_target_resolution_priority_witness :
    sendDataToParent (.obj plainFields) envAllAbsent =
      (.error .unresolvedTarget, envAllAbsent) :=
  (c1_target_resolution_priority.1 plainFields envAllAbsent rfl).1 rfl

/-- C2: the resolver's value rules: a finite number resolves to its
truncation toward zero; a non-finite number is absent; a string is
trimmed, an empty trim is absent, a trim that case-insensitively equals
the bulk token resolves to the bulk marker without numeric parsing, and
any other trim resolves to exactly the result of decimal integer parsing
(absent when unparseable); `undefined`, `null`, booleans and objects are
absent. -/
theorem c2_resolver_rules :
    (∀ q : Rat, resolveTargetMemberIndex (.num (.finite q)) =
      some (.num (.finite ((ratTrunc q : Int) : Rat)))) ∧
    resolveTargetMemberIndex (.num .nan) = none ∧
    resolveTargetMemberIndex (.num .posInf) = none ∧
    resolveTargetMemberIndex (.num .negInf) = none ∧
    (∀ s : String, jsTrim s = "" → resolveTargetMemberIndex (.str s) = none) ∧
    (∀ s : String, jsTrim s ≠ "" → asciiLower (jsTrim s) = "bulk" →
      resolveTargetMemberIndex (.str s) = some (.str "bulk")) ∧
    (∀ s : String, jsTrim s ≠ "" → asciiLower (jsTrim s) ≠ "bulk" →
      resolveTargetMemberIndex (.str s) =
        (parseInt10 (jsTrim s)).map (fun n => .num (jsIntToNumber n))) ∧
    resolveTargetMemberIndex .undef = none ∧
    resolveTargetMemberIndex .null = none ∧
    (∀ b, resolveTargetMemberIndex (.boolean b) = none) ∧
    (∀ l, resolveTargetMemberIndex (.obj l) = none) := by
  refine ⟨fun q => rfl, rfl, rfl, rfl, ?_, ?_, ?_, rfl, rfl, fun b => rfl, fun l => rfl⟩
  · intro s h
    simp [resolveTargetMemberIndex, h]
  · intro s h1 h2
    simp [resolveTargetMemberIndex, h1, h2]
  · intro s h1 h2
    simp only [resolveTargetMemberIndex, h1, h2, if_false, if_neg, ne_eq,
      not_false_eq_true]
    cases hp : parseInt10 (jsTrim s) <;> simp [hp]

/-- Witness for C2's string rules at concrete inputs. -/
theorem c2_resolver_rules_witness :
    resolveTargetMemberIndex (.str "   ") = none ∧
    resolveTargetMemberIndex (.str " BULK ") = some (.str "bulk") ∧
    resolveTargetMemberIndex (.str " 42abc") = some (.num (.finite 42)) := by
  refine ⟨?_, ?_, ?_⟩
  · exact c2_resolver_rules.2.2.2.2.1 "   " rfl
  · exact c2_resolver_rules.2.2.2.2.2.1 " BULK " (by decide) rfl
  · exact (c2_resolver_rules.2.2.2.2.2.2.1 " 42abc" (by decide) (by decide)).trans rfl

/-- C4: for every object payload missing the moment-of-inertia or area
field (absent, `null`, or the empty string), publish fails with the
missing-required-fields error listing exactly the missing keys among
`{I, A}`, and returns `false`. -/
theorem c4_missing_required_fields (fields : List (String × JSValue)) (env : PublishEnv)
    (h : jsMissingProp (getProp fields "I") = true ∨
         jsMissingProp (getProp fields "A") = true) :
    sendDataToParent (.obj fields) env =
      (.error (.missingRequiredFields (missingRequired fields)), env) ∧
    (∀ k, k ∈ missingRequired fields ↔
      (k ∈ requiredProps ∧ jsMissingProp (getProp fields k) = true)) ∧
    sendDataToParentReturn (.obj fields) env = false := by
  have hnil : missingRequired fields ≠ [] := by
    rcases h with h | h
    · exact List.ne_nil_of_mem
        (show "I" ∈ missingRequired fields by simp [missingRequired, requiredProps, h])
    · exact List.ne_nil_of_mem
        (show "A" ∈ missingRequired fields by simp [missingRequired, requiredProps, h])
  have hne : (missingRequired fields).isEmpty = false := by
    cases hl : missingRequired fields with
    | nil => exact absurd hl hnil
    | cons a l => rfl
  refine ⟨?_, ?_, ?_⟩
  · simp [sendDataToParent, hne]
  · intro k
    simp [missingRequired, List.mem_filter]
  · simp [sendDataToParentReturn, sendDataToParent, hne, publishSucceeded]

/-- Witness for C4: a payload supplying only `A` fails naming exactly
`I`. -/
theorem c4_missing_required_fields_witness :
    sendDataToParent (.obj [("A", .num (.finite 1))]) envRoundTrip =
      (.error (.missingRequiredFields ["I"]), envRoundTrip) ∧
    sendDataToParentReturn (.obj [("A", .num (.finite 1))]) envRoundTrip = false := by
  have h := c4_missing_required_fields [("A", .num (.finite 1))] envRoundTrip (Or.inl rfl)
  exact ⟨h.1, h.2.2⟩

/-- C3 counterexample: the claim that every member index that is not a
non-negative integer fails with the invalid-argument outcome and creates
no window is false on the code: `NaN` is number-typed and not `< 0`, so it
passes the validation and a window is both requested and returned, and
likewise for the non-integral `2.5`. -/
theorem c3_counterexample_nan_and_fraction_open :
    (openSteelSelector (.num .nan) [] envOpenOk).1 = some 1 ∧
    (openSteelSelector (.num .nan) [] envOpenOk).2.length = 1 ∧
    (openSteelSelector (.num (.finite (mkRat 5 2))) [] envOpenOk).1 = some 1 ∧
    ((openSteelSelector (.num (.finite (mkRat 5 2))) [] envOpenOk).2.map
      (fun c => c.url.query.lookup "targetMember")) = [some "2.5"] :=
  ⟨rfl, rfl, rfl, rfl⟩

/-- C3 amended: openSelector fails with the invalid-argument outcome
(returning `null`) and requests no window exactly when the argument is not
number-typed or is negative; number-typed non-integers (`NaN`, `Infinity`,
fractions) pass the validation. -/
theorem c3_invalid_argument_amended (v : JSValue) (props : List (String × JSValue))
    (env : OpenEnv)
    (h : jsIsNumberType v = false ∨ jsLtZero v = true) :
    openSteelSelector v props env = (none, []) := by
  rcases h with h | h <;> simp [openSteelSelector, h]

/-- Witness for C3's amended theorem: a string argument and a negative
number both fail without a window request. -/
theorem c3_invalid_argument_amended_witness :
    openSteelSelector (.str "first") [] envOpenOk = (none, []) ∧
    openSteelSelector (.num (.finite (mkRat (-1) 1))) [] envOpenOk = (none, []) :=
  ⟨c3_invalid_argument_amended (.str "first") [] envOpenOk (Or.inl rfl),
   c3_invalid_argument_amended (.num (.finite (mkRat (-1) 1))) [] envOpenOk (Or.inr rfl)⟩

/-- C10 counterexample: target resolution can succeed with a non-finite
number — the 310-digit override string parses to `Infinity` — so the
defensive invalid-target-type branch of publish is reachable. -/
theorem c10_counterexample_overflow_string :
    resolveTargetMemberIndex (.str hugeDigits) = some (.num .posInf) ∧
    targetTypeInvalid (.num .posInf) = true ∧
    sendDataToParent (.obj hugeOverrideFields) envAllAbsent =
      (.error .invalidTargetType, envAllAbsent) :=
  ⟨rfl, rfl, rfl⟩

/-- C10 amended: whenever resolution succeeds, the resolved value passes
the defensive re-check — it is a finite number or the bulk token —
provided every string source parses below the double overflow threshold
(`withinParseRange`); only a digit string of magnitude at least
2^1024 − 2^970 reaches the invalid-target-type branch. -/
theorem c10_resolved_target_valid_amended (v t : JSValue)
    (hres : resolveTargetMemberIndex v = some t) (hrange : withinParseRange v) :
    targetTypeInvalid t = false := by
  cases v with
  | undef => cases hres
  | null => cases hres
  | boolean b => cases hres
  | obj l => cases hres
  | num x =>
    cases x with
    | finite q =>
      simp only [resolveTargetMemberIndex, Option.some.injEq] at hres
      subst hres
      rfl
    | nan => cases hres
    | posInf => cases hres
    | negInf => cases hres
  | str s =>
    by_cases h1 : jsTrim s = ""
    · simp [resolveTargetMemberIndex, h1] at hres
    · by_cases h2 : asciiLower (jsTrim s) = "bulk"
      · simp [resolveTargetMemberIndex, h1, h2] at hres
        subst hres
        rfl
      · cases hp : parseInt10 (jsTrim s) with
        | none => simp [resolveTargetMemberIndex, h1, h2, hp] at hres
        | some m =>
          have hb := hrange s rfl m hp
          simp [resolveTargetMemberIndex, h1, h2, hp] at hres
          subst hres
          simp [targetTypeInvalid, jsIntToNumber, hb, JSNum.isFinite]

/-- Witness for C10's amended theorem: the upper-case bulk token resolves
to the bulk marker, which passes the defensive re-check. -/
theorem c10_resolved_target_valid_amended_witness :
    targetTypeInvalid (.str "bulk") = false := by
  refine c10_resolved_target_valid_amended (.str "BULK") (.str "bulk") rfl ?_
  intro s hs m hm
  cases hs
  rw [show parseInt10 (jsTrim "BULK") = none from rfl] at hm
  cases hm

/-- C8 counterexample: the claim that the material/eValue/strengthValue
parameters are filled from the supplied properties, with the fixed
constants used only when a property is absent, is false on the code: a
present-but-empty `material` (the falsy `""`) is replaced by the constant
`'steel'` even though the property was supplied. -/
theorem c8_counterexample_empty_material :
    getProp [("material", .str "")] "material" = .str "" ∧
    ((openSteelSelector (.num (.finite 1)) [("material", .str "")] envOpenOk).2.map
      (fun c => c.url.query.lookup "material")) = [some "steel"] ∧
    (some "steel" : Option String) ≠ some "" :=
  ⟨rfl, rfl, by decide⟩

/-- C8 amended: for every non-negative integer member index (below 10^21,
where JavaScript still renders plain decimal) and available window handle,
openSelector succeeds with that handle and a single window request whose
URL is the selector page with `targetMember` equal to the decimal of the
index, and whose material/eValue/strengthValue parameters equal the
ToString of the corresponding supplied property when that property is
truthy, and the fixed constants `'steel'`/`'205000'`/`'235'` when it is
absent or falsy. -/
theorem c8_open_selector_url_amended (n : Nat) (props : List (String × JSValue))
    (env : OpenEnv) (h : Nat) (hopen : env.openResult = some h) (hn : n < 10 ^ 21) :
    (openSteelSelector (.num (.finite (n : Rat))) props env).1 = some h ∧
    ((openSteelSelector (.num (.finite (n : Rat))) props env).2.map
      (fun c => c.url.page)) = ["steel_selector.html"] ∧
    ((openSteelSelector (.num (.finite (n : Rat))) props env).2.map
      (fun c => c.url.query.lookup "targetMember")) = [some (natDecimal n)] ∧
    (jsTruthy (getProp props "material") = true →
      ((openSteelSelector (.num (.finite (n : Rat))) props env).2.map
        (fun c => c.url.query.lookup "material")) =
        [some (jsParamString (getProp props "material"))]) ∧
    (jsTruthy (getProp props "material") = false →
      ((openSteelSelector (.num (.finite (n : Rat))) props env).2.map
        (fun c => c.url.query.lookup "material")) = [some "steel"]) ∧
    (jsTruthy (getProp props "E") = true →
      ((openSteelSelector (.num (.finite (n : Rat))) props env).2.map
        (fun c => c.url.query.lookup "eValue")) =
        [some (jsParamString (getProp props "E"))]) ∧
    (jsTruthy (getProp props "E") = false →
      ((openSteelSelector (.num (.finite (n : Rat))) props env).2.map
        (fun c => c.url.query.lookup "eValue")) = [some "205000"]) ∧
    (jsTruthy (getProp props "strengthValue") = true →
      ((openSteelSelector (.num (.finite (n : Rat))) props env).2.map
        (fun c => c.url.query.lookup "strengthValue")) =
        [some (jsParamString (getProp props "strengthValue"))]) ∧
    (jsTruthy (getProp props "strengthValue") = false →
      ((openSteelSelector (.num (.finite (n : Rat))) props env).2.map
        (fun c => c.url.query.lookup "strengthValue")) = [some "235"]) := by
  have h0 : ¬ ((n : Rat) < 0) := not_lt.mpr (Nat.cast_nonneg n)
  have hlt : jsLtZero (.num (.finite (n : Rat))) = false := by
    simp [jsLtZero, h0]
  have key : openSteelSelector (.num (.finite (n : Rat))) props env =
      (some h,
       [{ url := { page := "steel_selector.html",
                   query := selectorQuery (.num (.finite (n : Rat))) props },
          windowName := "SteelSelector", features := selectorFeatures env }]) := by
    simp [openSteelSelector, hlt, hopen, jsIsNumberType]
  have hnum : ((n : Rat)).num = (n : Int) := Rat.num_natCast n
  have hden : ((n : Rat)).den = 1 := Rat.den_natCast n
  have hneg : ¬ ((n : Int) < 0) := not_lt.mpr (Int.natCast_nonneg n)
  have hq : jsParamString (.num (.finite (n : Rat))) = natDecimal n := by
    simp [jsParamString, jsNumToString, hnum, hden, hneg, jsNatDisplay, hn,
      Int.natAbs_ofNat, Nat.div_one, Nat.mod_one]
    intro hcon
    exact absurd hn (by omega)
  have lookTM : (selectorQuery (.num (.finite (n : Rat))) props).lookup "targetMember" =
      some (jsParamString (.num (.finite (n : Rat)))) := rfl
  have lookMat : (selectorQuery (.num (.finite (n : Rat))) props).lookup "material" =
      some (jsParamString (jsOr (getProp props "material") (.str "steel"))) := rfl
  have lookE : (selectorQuery (.num (.finite (n : Rat))) props).lookup "eValue" =
      some (jsParamString (jsOr (getProp props "E") (.str "205000"))) := rfl
  have lookS : (selectorQuery (.num (.finite (n : Rat))) props).lookup "strengthValue" =
      some (jsParamString (jsOr (getProp props "strengthValue") (.str "235"))) := rfl
  refine ⟨by rw [key], by rw [key]; rfl, ?_, ?_, ?_, ?_, ?_, ?_, ?_⟩
  · rw [key]; simp only [List.map_cons, List.map_nil]; rw [lookTM, hq]
  · intro ht
    rw [key]; simp only [List.map_cons, List.map_nil]; rw [lookMat]
    simp [jsOr, ht]
  · intro hf
    rw [key]; simp only [List.map_cons, List.map_nil]; rw [lookMat]
    simp [jsOr, hf, jsParamString]
  · intro ht
    rw [key]; simp only [List.map_cons, List.map_nil]; rw [lookE]
    simp [jsOr, ht]
  · intro hf
    rw [key]; simp only [List.map_cons, List.map_nil]; rw [lookE]
    simp [jsOr, hf, jsParamString]
  · intro ht
    rw [key]; simp only [List.map_cons, List.map_nil]; rw [lookS]
    simp [jsOr, ht]
  · intro hf
    rw [key]; simp only [List.map_cons, List.map_nil]; rw [lookS]
    simp [jsOr, hf, jsParamString]

/-- Witness for C8's amended theorem at index 4 with a supplied material
and the other properties absent. -/
theorem c8_open_selector_url_amended_witness :
    (openSteelSelector (.num (.finite ((4 : Nat) : Rat)))
      [("material", .str "concrete")] envOpenOk).1 = some 1 ∧
    ((openSteelSelector (.num (.finite ((4 : Nat) : Rat)))
      [("material", .str "concrete")] envOpenOk).2.map
      (fun c => c.url.query.lookup "targetMember")) = [some "4"] ∧
    ((openSteelSelector (.num (.finite ((4 : Nat) : Rat)))
      [("material", .str "concrete")] envOpenOk).2.map
      (fun c => c.url.query.lookup "material")) = [some "concrete"] ∧
    ((openSteelSelector (.num (.finite ((4 : Nat) : Rat)))
      [("material", .str "concrete")] envOpenOk).2.map
      (fun c => c.url.query.lookup "eValue")) = [some "205000"] := by
  have hw := c8_open_selector_url_amended 4 [("material", .str "concrete")]
    envOpenOk 1 rfl (by norm_num)
  refine ⟨hw.1, ?_, ?_, hw.2.2.2.2.2.2.1 rfl⟩
  · have := hw.2.2.1
    rwa [show natDecimal 4 = "4" from rfl] at this
  · have := hw.2.2.2.1 rfl
    simpa using this
